import Mathlib

/-!
# Verification of `twisted/enterprise/adbapi.py`

A shallow embedding of the connection pool (`ConnectionPool`) and cursor
handle (`Transaction`) from `src/twisted/enterprise/adbapi.py`, together
with proofs of the specification claims.

Modelling conventions:
* Connection and cursor instances are identified by natural numbers; the
  external DB-API driver hands out fresh identifiers from a counter, which
  models "a new connection/cursor object, distinct from every earlier one".
* Calls into the external driver (`connect`, `cursor`, `execute`,
  `fetchall`, `close`, `commit`, `rollback`) and into the user-supplied
  interaction function are recorded as events in a trace, so that "commit
  is invoked exactly once" and similar claims become statements about
  event counts.
* Python exceptions are modelled with `Except`: a driver call or user
  function either returns a value or raises an error value, and Python's
  `try:/except:` blocks are translated with `tryCatch`.
-/

namespace Adbapi

/-! ## Events of one unit of work

These record the calls a unit of work (`_runQuery`, `_runOperation`,
`_runInteraction`) makes on the worker's connection, its cursors, and the
user-supplied interaction function. -/

inductive Ev where
  /-- `self.connect()` — acquire the worker's pooled connection. -/
  | connAcquire
  /-- `conn.cursor()` — open a cursor (also performed by `Transaction.reopen`). -/
  | openCursor
  /-- `curs.execute(*args, **kw)`. -/
  | exec
  /-- `curs.fetchall()`. -/
  | fetch
  /-- `curs.close()` (for a `Transaction` handle, relayed to its cursor). -/
  | cclose
  /-- invocation of the user-supplied `interaction` function. -/
  | interact
  /-- `conn.commit()`. -/
  | commit
  /-- `conn.rollback()`. -/
  | rollback
deriving DecidableEq, Repr

/-- The monad of one unit of work running on a worker thread: it can raise
a (driver- or user-produced) error `E` and records the trace of driver and
interaction calls it makes. -/
abbrev DbM (E : Type) (α : Type) : Type := ExceptT E (StateM (List Ev)) α

/-- One call into the external driver (or into the user's interaction
function): the event is recorded in the trace and then the call's outcome
`res` is either returned or raised, exactly as the corresponding Python
call would return or raise. -/
def call {E α : Type} (ev : Ev) (res : Except E α) : DbM E α := do
  modify (fun t => t ++ [ev])
  match res with
  | .ok a => pure a
  | .error e => throw e

/-- The behaviour of the external world during `_runQuery`: did
`curs.execute` raise, and what did `curs.fetchall` return or raise?
(`self.connect()`, `conn.cursor()`, `curs.close()`, `conn.commit()` and
`conn.rollback()` are modelled as returning normally; connection opening
failure is treated in the pool model below.) -/
structure QueryWorld (E R : Type) where
  execRes : Except E Unit
  fetchRes : Except E R

/-- `ConnectionPool._runQuery` (adbapi.py lines 269–280):

    conn = self.connect()
    curs = conn.cursor()
    try:
        curs.execute(*args, **kw)
        result = curs.fetchall()
        curs.close()
        conn.commit()
        return result
    except:
        conn.rollback()
        raise
-/
def runQueryM {E R : Type} (w : QueryWorld E R) : DbM E R := do
  call .connAcquire (.ok ())
  call .openCursor (.ok ())
  tryCatch
    (do
      call .exec w.execRes
      let result ← call .fetch w.fetchRes
      call .cclose (.ok ())
      call .commit (.ok ())
      pure result)
    (fun e => do
      call .rollback (.ok ())
      throw e)

/-- Run `_runQuery` from an empty trace: the pair of its outcome (the value
the future is resolved with, or the raised failure) and the trace of calls. -/
def runQuery {E R : Type} (w : QueryWorld E R) : Except E R × List Ev :=
  (runQueryM w).run.run []

/-- The behaviour of the external world during `_runOperation`: did
`curs.execute` raise? -/
structure OperationWorld (E : Type) where
  execRes : Except E Unit

/-- `ConnectionPool._runOperation` (adbapi.py lines 282–291):

    conn = self.connect()
    curs = conn.cursor()
    try:
        curs.execute(*args, **kw)
        curs.close()
        conn.commit()
    except:
        conn.rollback()
        raise
-/
def runOperationM {E : Type} (w : OperationWorld E) : DbM E Unit := do
  call .connAcquire (.ok ())
  call .openCursor (.ok ())
  tryCatch
    (do
      call .exec w.execRes
      call .cclose (.ok ())
      call .commit (.ok ())
      pure ())
    (fun e => do
      call .rollback (.ok ())
      throw e)

/-- Run `_runOperation` from an empty trace. -/
def runOperation {E : Type} (w : OperationWorld E) : Except E Unit × List Ev :=
  (runOperationM w).run.run []

/-- The behaviour of the user-supplied interaction function: the value it
returns, or the exception it raises. -/
structure InteractionWorld (E R : Type) where
  interRes : Except E R

/-- `ConnectionPool._runInteraction` (adbapi.py lines 258–267):

    trans = Transaction(self, self.connect())
    try:
        result = interaction(trans, *args, **kw)
        trans.close()
        trans._connection.commit()
        return result
    except:
        trans._connection.rollback()
        raise

`Transaction.__init__` calls `reopen()`, which opens a cursor from the
connection (event `openCursor`); `trans.close()` is relayed by
`Transaction.__getattr__` to the cursor's `close` (event `cclose`). -/
def runInteractionM {E R : Type} (w : InteractionWorld E R) : DbM E R := do
  call .connAcquire (.ok ())
  call .openCursor (.ok ())
  tryCatch
    (do
      let result ← call .interact w.interRes
      call .cclose (.ok ())
      call .commit (.ok ())
      pure result)
    (fun e => do
      call .rollback (.ok ())
      throw e)

/-- Run `_runInteraction` from an empty trace. -/
def runInteraction {E R : Type} (w : InteractionWorld E R) : Except E R × List Ev :=
  (runInteractionM w).run.run []

/-! ## The connection pool and its registry

`ConnectionPool.connections` is a Python dict "hashed on thread id"; we
model it as an association list from thread identity (`Nat`) to connection
identifier (`Nat`).  The external driver's `connect` produces a fresh
connection object on every successful call, modelled by a counter `dnext`
threaded beside the pool: the `n`-th physical connection is the identifier
`n`.  Pool-level side effects (driver `connect` calls, `openfun` hook
invocations, `conn.close()` calls) are recorded as `PEv` events. -/

/-- Pool-level events: calls the pool makes on the driver module, the
configured `cp_openfun` hook, and connections. -/
inductive PEv where
  /-- `self.dbapi.connect(*self.connargs, **self.connkw)` — the stored
  connect arguments are forwarded verbatim. -/
  | driverConnect (args : List String) (kw : List (String × String))
  /-- `self.openfun(conn)` on a newly opened connection. -/
  | openfunCall (conn : Nat)
  /-- `conn.close()` (via `ConnectionPool._close`). -/
  | connClose (conn : Nat)
deriving DecidableEq, Repr

/-- `ConnectionPool` state (adbapi.py lines 50–114).  `openfun` records
whether a `cp_openfun` hook is configured (`self.openfun != None`);
`startID`/`shutdownID` are the reactor trigger handles (`shutdownID` is set
by `start()`). -/
structure Pool where
  dbapiName : String
  noisy : Bool
  min : Int
  max : Int
  openfun : Bool
  connargs : List String
  connkw : List (String × String)
  connections : List (Nat × Nat)
  running : Bool
  startID : Option Nat
  shutdownID : Option Nat
deriving DecidableEq, Repr

/-- `self.connections.get(tid)` — dictionary lookup on the registry. -/
def lookupConn : List (Nat × Nat) → Nat → Option Nat
  | [], _ => none
  | e :: rest, tid => if e.1 = tid then some e.2 else lookupConn rest tid

/-- The `cp_min`/`cp_max` reconciliation of `ConnectionPool.__init__`
(adbapi.py lines 100–101), with Python's sequential assignment made
explicit:

    self.min = min(self.min, self.max)
    self.max = max(self.min, self.max)

(the second line already sees the reassigned `self.min`). -/
def clampMinMax (mn mx : Int) : Int × Int :=
  let mn' := Min.min mn mx
  let mx' := Max.max mn' mx
  (mn', mx')

/-- `ConnectionPool.__init__` (adbapi.py lines 71–114).  `cpMin`/`cpMax`
are the optional `cp_min`/`cp_max` keyword arguments (class defaults 3 and
5 when absent); likewise `cpNoisy` (default true) and `cpOpenfun` (default
none configured).  The driver-module import, the reactor
`callWhenRunning` registration (which sets `startID`) and the `ThreadPool`
construction are external; construction itself never raises. -/
def mkPool (dbapiName : String) (connargs : List String)
    (connkw : List (String × String)) (cpMin cpMax : Option Int)
    (cpNoisy : Option Bool) (cpOpenfun : Bool) : Pool :=
  let mn0 : Int := cpMin.getD 3
  let mx0 : Int := cpMax.getD 5
  let (mn, mx) := clampMinMax mn0 mx0
  { dbapiName := dbapiName
    noisy := cpNoisy.getD true
    min := mn
    max := mx
    openfun := cpOpenfun
    connargs := connargs
    connkw := connkw
    connections := []
    running := false
    startID := some 0
    shutdownID := none }

/-- `ConnectionPool.start` (adbapi.py lines 115–128): when not running,
starts the threadpool (external), registers the shutdown trigger (sets
`shutdownID`), and marks the pool running; a no-op otherwise. -/
def Pool.start (p : Pool) : Pool :=
  if p.running then p
  else { p with shutdownID := some 1, running := true }

/-- The outcome of one `ConnectionPool.connect` call: the call's result
(the connection, or the raised driver error), the updated pool and
fresh-connection counter, and the pool-level events. -/
structure ConnectRes where
  res : Except Unit Nat
  pool : Pool
  dnext : Nat
  events : List PEv
deriving Repr

/-- `ConnectionPool.connect` (adbapi.py lines 215–235), run under thread
identity `tid`:

    tid = self.threadID()
    conn = self.connections.get(tid)
    if conn is None:
        if self.noisy: log.msg(...)
        conn = self.dbapi.connect(*self.connargs, **self.connkw)
        if self.openfun != None:
            self.openfun(conn)
        self.connections[tid] = conn
    return conn

`dnext` is the driver's fresh-connection counter; `fail = true` means this
particular `dbapi.connect` call raises. -/
def Pool.connect (p : Pool) (dnext : Nat) (fail : Bool) (tid : Nat) :
    ConnectRes :=
  match lookupConn p.connections tid with
  | some conn => ⟨.ok conn, p, dnext, []⟩
  | none =>
    if fail then
      -- `self.dbapi.connect(...)` raised: the exception propagates before
      -- `self.connections[tid] = conn` runs, so the registry is untouched.
      ⟨.error (), p, dnext, [.driverConnect p.connargs p.connkw]⟩
    else
      let conn := dnext
      ⟨.ok conn,
       { p with connections := p.connections ++ [(tid, conn)] },
       dnext + 1,
       [.driverConnect p.connargs p.connkw] ++
         (if p.openfun then [.openfunCall conn] else [])⟩

/-- The outcome of one `ConnectionPool.disconnect` call: normal return or
the raised exception message, the updated pool, and the pool-level
events. -/
structure DisconnectRes where
  res : Except String Unit
  pool : Pool
  events : List PEv
deriving Repr

/-- `ConnectionPool.disconnect` (adbapi.py lines 237–249), run under thread
identity `tid`:

    tid = self.threadID()
    if conn is not self.connections.get(tid):
        raise Exception("wrong connection for thread")
    if conn is not None:
        self._close(conn)
        del self.connections[tid]

The argument is an `Option Nat` because Python allows `conn = None` here
(`self.connections.get(tid)` can itself be `None`, and the code guards
`if conn is not None`); `is` identity on connection objects is equality of
identifiers.  When the exception is raised the registry is untouched. -/
def Pool.disconnect (p : Pool) (tid : Nat) (conn : Option Nat) :
    DisconnectRes :=
  if conn ≠ lookupConn p.connections tid then
    ⟨.error "wrong connection for thread", p, []⟩
  else
    match conn with
    | some c =>
        ⟨.ok (),
         { p with connections := p.connections.filter (fun e => e.1 != tid) },
         [.connClose c]⟩
    | none => ⟨.ok (), p, []⟩

/-- `ConnectionPool.finalClose` (adbapi.py lines 207–213): stops the
threadpool (external), clears `running`, calls `self._close` on every
registered connection, and clears the registry. -/
def Pool.finalClose (p : Pool) : Pool × List PEv :=
  ({ p with running := false, connections := [] },
   p.connections.map (fun e => PEv.connClose e.2))

/-- `ConnectionPool.close` (adbapi.py lines 196–205): removes the reactor
triggers (clearing `shutdownID` and `startID`) and calls `finalClose`. -/
def Pool.close (p : Pool) : Pool × List PEv :=
  let p1 := { p with shutdownID := none, startID := none }
  p1.finalClose

/-! ## The `Transaction` cursor handle

`Transaction` (adbapi.py lines 27–47) wraps one connection and one cursor.
The connection's `cursor()` method hands out fresh cursor objects, modelled
by a counter; cursors that have had `close()` called on them are collected
in `closed`. -/

/-- The cursor-related state of one connection: the fresh-cursor counter
and the set of cursors already closed. -/
structure ConnSt where
  nextCursor : Nat
  closed : List Nat
deriving DecidableEq, Repr

/-- `conn.cursor()`: returns a fresh cursor object. -/
def ConnSt.cursor (c : ConnSt) : Nat × ConnSt :=
  (c.nextCursor, { c with nextCursor := c.nextCursor + 1 })

/-- `curs.close()` on cursor `k`. -/
def ConnSt.closeCursor (c : ConnSt) (k : Nat) : ConnSt :=
  { c with closed := k :: c.closed }

/-- The `Transaction` handle's own state: its `_cursor` attribute (the
class default is `None`, i.e. `none`). -/
structure Trans where
  cursor : Option Nat
deriving DecidableEq, Repr

/-- `Transaction.reopen` (adbapi.py lines 41–44):

    if self._cursor is not None:
        self._cursor.close()
    self._cursor = self._connection.cursor()
-/
def Trans.reopen (t : Trans) (c : ConnSt) : Trans × ConnSt :=
  let c1 := match t.cursor with
    | some k => c.closeCursor k
    | none => c
  let (k, c2) := c1.cursor
  (⟨some k⟩, c2)

/-- `Transaction.__init__` (adbapi.py lines 37–39): stores the connection
and immediately calls `reopen()`; `_cursor` starts at the class default
`None`. -/
def Trans.init (c : ConnSt) : Trans × ConnSt :=
  Trans.reopen ⟨none⟩ c

/-- `Transaction.__getattr__` (adbapi.py lines 46–47): every attribute or
method access on the handle is relayed to the underlying `_cursor`; this
returns the cursor the access is forwarded to. -/
def Trans.getattrTarget (t : Trans) : Option Nat :=
  t.cursor

/-- Well-formedness of a connection's cursor state: every closed cursor
was previously handed out, i.e. is below the fresh counter. -/
def ConnSt.wf (c : ConnSt) : Prop :=
  ∀ x ∈ c.closed, x < c.nextCursor

/-- Well-formedness of a handle with its connection: the held cursor (if
any) was handed out by the connection and has not been closed. -/
def Trans.wf (t : Trans) (c : ConnSt) : Prop :=
  c.wf ∧ ∀ k, t.cursor = some k → k < c.nextCursor ∧ k ∉ c.closed

/-- Well-formedness of a pool against the driver's fresh-connection
counter: every registered connection was handed out by the driver, thread
identities key at most one entry, and no connection is registered under
two identities. -/
def Pool.WF (p : Pool) (dnext : Nat) : Prop :=
  (∀ e ∈ p.connections, e.2 < dnext) ∧
  (p.connections.map Prod.fst).Nodup ∧
  (p.connections.map Prod.snd).Nodup

/-- A freshly constructed pool with default `cp_min`/`cp_max` and an empty
registry, for concrete checks. -/
def freshPool : Pool := mkPool "pyPgSQL.PgSQL" ["db=test"] [] none none none false

/-- `freshPool` with connection 5 registered for thread identity 0 (the
driver counter having reached 6), for concrete checks. -/
def samplePool : Pool := { freshPool with connections := [(0, 5)] }

/-! ## Registry lemmas -/

theorem lookupConn_mem {l : List (Nat × Nat)} {tid c : Nat}
    (h : lookupConn l tid = some c) : (tid, c) ∈ l := by
  induction l with
  | nil => simp [lookupConn] at h
  | cons e rest ih =>
    obtain ⟨k, v⟩ := e
    by_cases he : k = tid
    · subst he
      simp [lookupConn] at h
      subst h
      exact List.mem_cons_self _ _
    · simp [lookupConn, he] at h
      exact List.mem_cons_of_mem _ (ih h)

theorem lookupConn_eq_none_iff {l : List (Nat × Nat)} {tid : Nat} :
    lookupConn l tid = none ↔ ∀ e ∈ l, e.1 ≠ tid := by
  induction l with
  | nil => simp [lookupConn]
  | cons e rest ih =>
    by_cases he : e.1 = tid <;> simp [lookupConn, he, ih]

theorem lookupConn_append_ne {l : List (Nat × Nat)} {t tid : Nat}
    (c : Nat) (h : tid ≠ t) :
    lookupConn (l ++ [(t, c)]) tid = lookupConn l tid := by
  have h' : ¬ (t = tid) := fun hh => h hh.symm
  induction l with
  | nil => simp [lookupConn, h']
  | cons e rest ih =>
    by_cases he : e.1 = tid <;> simp [lookupConn, he, ih]

theorem lookupConn_append_self {l : List (Nat × Nat)} {t : Nat} (c : Nat)
    (h : lookupConn l t = none) :
    lookupConn (l ++ [(t, c)]) t = some c := by
  induction l with
  | nil => simp [lookupConn]
  | cons e rest ih =>
    by_cases he : e.1 = t
    · simp [lookupConn, he] at h
    · simp only [lookupConn, he, if_neg, not_false_iff] at h ⊢
      simp [List.cons_append, lookupConn, he, ih h]

theorem lookupConn_filter_ne {l : List (Nat × Nat)} {tid tid' : Nat}
    (h : tid' ≠ tid) :
    lookupConn (l.filter (fun e => e.1 != tid)) tid' = lookupConn l tid' := by
  have ht : ¬ (tid = tid') := fun hh => h hh.symm
  induction l with
  | nil => simp [lookupConn]
  | cons e rest ih =>
    by_cases he : e.1 = tid
    · simp [List.filter_cons, he, lookupConn, ht, ih]
    · by_cases he' : e.1 = tid'
      · simp [List.filter_cons, he, lookupConn, he', h]
      · simp [List.filter_cons, he, lookupConn, he', ih]

theorem lookupConn_filter_self {l : List (Nat × Nat)} {tid : Nat} :
    lookupConn (l.filter (fun e => e.1 != tid)) tid = none := by
  induction l with
  | nil => simp [lookupConn]
  | cons e rest ih =>
    by_cases he : e.1 = tid
    · simp [List.filter_cons, he, ih]
    · simp [List.filter_cons, he, lookupConn, ih]

/-- Two registry lookups of a well-formed pool that return the same
connection were made under the same thread identity. -/
theorem lookupConn_inj {p : Pool} {d : Nat} (hwf : p.WF d) {t1 t2 c : Nat}
    (h1 : lookupConn p.connections t1 = some c)
    (h2 : lookupConn p.connections t2 = some c) : t1 = t2 := by
  have m1 := lookupConn_mem h1
  have m2 := lookupConn_mem h2
  have heq : ((t1, c) : Nat × Nat) = (t2, c) :=
    List.inj_on_of_nodup_map hwf.2.2 m1 m2 rfl
  exact congrArg Prod.fst heq

/-- A registered connection is below the driver's counter. -/
theorem lookupConn_lt {p : Pool} {d : Nat} (hwf : p.WF d) {t c : Nat}
    (h : lookupConn p.connections t = some c) : c < d :=
  hwf.1 _ (lookupConn_mem h)

/-! ## `connect`/`disconnect` lemmas -/

/-- After a successful `connect`, the returned connection is registered
under the calling thread identity. -/
theorem connect_ok_lookup {p : Pool} {d : Nat} {fail : Bool} {tid c : Nat}
    (h : (p.connect d fail tid).res = .ok c) :
    lookupConn (p.connect d fail tid).pool.connections tid = some c := by
  cases hl : lookupConn p.connections tid with
  | some c0 =>
    simp [Pool.connect, hl] at h ⊢
    simp [h]
  | none =>
    cases fail with
    | true => simp [Pool.connect, hl] at h
    | false =>
      simp [Pool.connect, hl] at h ⊢
      rw [← h]
      exact lookupConn_append_self _ hl

/-- `connect` preserves well-formedness of the registry against the
driver's counter (in every branch, including the failing one). -/
theorem connect_WF {p : Pool} {d : Nat} (fail : Bool) (tid : Nat)
    (hwf : p.WF d) :
    (p.connect d fail tid).pool.WF (p.connect d fail tid).dnext := by
  cases hl : lookupConn p.connections tid with
  | some c0 => simpa [Pool.connect, hl] using hwf
  | none =>
    cases fail with
    | true => simpa [Pool.connect, hl] using hwf
    | false =>
      obtain ⟨hbound, hkeys, hvals⟩ := hwf
      have hne := lookupConn_eq_none_iff.1 hl
      have hconn : (p.connect d false tid).pool.connections =
          p.connections ++ [(tid, d)] := by
        simp [Pool.connect, hl]
      have hd : (p.connect d false tid).dnext = d + 1 := by
        simp [Pool.connect, hl]
      refine ⟨?_, ?_, ?_⟩
      · intro e he
        rw [hconn] at he
        rw [hd]
        rcases List.mem_append.1 he with he | he
        · exact Nat.lt_succ_of_lt (hbound e he)
        · simp at he
          simp [he]
      · rw [hconn, List.map_append, List.nodup_append]
        refine ⟨hkeys, List.nodup_singleton _, ?_⟩
        intro a ha hmem
        simp at hmem
        rw [hmem] at ha
        rcases List.mem_map.1 ha with ⟨e, hel, hefst⟩
        exact hne e hel hefst
      · rw [hconn, List.map_append, List.nodup_append]
        refine ⟨hvals, List.nodup_singleton _, ?_⟩
        intro a ha hmem
        simp at hmem
        rw [hmem] at ha
        rcases List.mem_map.1 ha with ⟨e, hel, hesnd⟩
        exact Nat.lt_irrefl d (hesnd ▸ hbound e hel)

/-- `connect` leaves every other identity's registry entry and the whole
pool configuration unchanged. -/
theorem connect_frame (p : Pool) (d : Nat) (fail : Bool) (tid : Nat) :
    ((p.connect d fail tid).pool.dbapiName = p.dbapiName ∧
     (p.connect d fail tid).pool.noisy = p.noisy ∧
     (p.connect d fail tid).pool.min = p.min ∧
     (p.connect d fail tid).pool.max = p.max ∧
     (p.connect d fail tid).pool.openfun = p.openfun ∧
     (p.connect d fail tid).pool.connargs = p.connargs ∧
     (p.connect d fail tid).pool.connkw = p.connkw) ∧
    (∀ t', t' ≠ tid →
      lookupConn (p.connect d fail tid).pool.connections t' =
        lookupConn p.connections t') := by
  cases hl : lookupConn p.connections tid with
  | some c0 => simp [Pool.connect, hl]
  | none =>
    cases fail with
    | true => simp [Pool.connect, hl]
    | false =>
      refine ⟨by simp [Pool.connect, hl], ?_⟩
      intro t' ht'
      simp only [Pool.connect, hl]
      exact lookupConn_append_ne _ ht'

/-- `disconnect` leaves every other identity's registry entry and the
whole pool configuration unchanged. -/
theorem disconnect_frame (p : Pool) (tid : Nat) (conn : Option Nat) :
    ((p.disconnect tid conn).pool.dbapiName = p.dbapiName ∧
     (p.disconnect tid conn).pool.noisy = p.noisy ∧
     (p.disconnect tid conn).pool.min = p.min ∧
     (p.disconnect tid conn).pool.max = p.max ∧
     (p.disconnect tid conn).pool.openfun = p.openfun ∧
     (p.disconnect tid conn).pool.connargs = p.connargs ∧
     (p.disconnect tid conn).pool.connkw = p.connkw) ∧
    (∀ t', t' ≠ tid →
      lookupConn (p.disconnect tid conn).pool.connections t' =
        lookupConn p.connections t') := by
  by_cases hc : conn = lookupConn p.connections tid
  · cases hco : conn with
    | some c =>
      refine ⟨by simp [Pool.disconnect, hco ▸ hc, hco], ?_⟩
      intro t' ht'
      simp only [Pool.disconnect, hco ▸ hc, hco, ne_eq, not_true_eq_false,
        if_false]
      exact lookupConn_filter_ne ht'
    | none => simp [Pool.disconnect, hco ▸ hc]
  · simp [Pool.disconnect, hc]

/-! ## Claim theorems -/

/-- C1: for every successful unit of work submitted through `runQuery`,
`runOperation`, or `runInteraction`, the underlying connection's `commit`
is invoked exactly once and `rollback` is never invoked; in the `runQuery`
case the outcome handed to the future is exactly the complete row set
returned by the cursor's `fetchall`. -/
theorem successful_work_commits_once {E R : Type} (rows r : R) :
    ((runQuery (E := E) ⟨.ok (), .ok rows⟩).1 = .ok rows ∧
     ((runQuery (E := E) ⟨.ok (), .ok rows⟩).2.count .commit = 1 ∧
      (runQuery (E := E) ⟨.ok (), .ok rows⟩).2.count .rollback = 0)) ∧
    ((runOperation (E := E) ⟨.ok ()⟩).1 = .ok () ∧
     ((runOperation (E := E) ⟨.ok ()⟩).2.count .commit = 1 ∧
      (runOperation (E := E) ⟨.ok ()⟩).2.count .rollback = 0)) ∧
    ((runInteraction (E := E) ⟨.ok r⟩).1 = .ok r ∧
     ((runInteraction (E := E) ⟨.ok r⟩).2.count .commit = 1 ∧
      (runInteraction (E := E) ⟨.ok r⟩).2.count .rollback = 0)) :=
  ⟨⟨rfl, rfl, rfl⟩, ⟨rfl, rfl, rfl⟩, ⟨rfl, rfl, rfl⟩⟩

/-- C2: for every unit of work in which the cursor's `execute`, a fetch,
or the user-supplied interaction function raises a failure, the
connection's `rollback` is invoked exactly once, `commit` is never
invoked, and that same failure is propagated to the caller. -/
theorem failed_work_rolls_back {E R : Type} (e : E) (fr : Except E R) :
    ((runQuery ⟨.error e, fr⟩).1 = .error e ∧
     ((runQuery ⟨.error e, fr⟩).2.count .rollback = 1 ∧
      (runQuery ⟨.error e, fr⟩).2.count .commit = 0)) ∧
    ((runQuery (E := E) (R := R) ⟨.ok (), .error e⟩).1 = .error e ∧
     ((runQuery (E := E) (R := R) ⟨.ok (), .error e⟩).2.count .rollback = 1 ∧
      (runQuery (E := E) (R := R) ⟨.ok (), .error e⟩).2.count .commit = 0)) ∧
    ((runOperation ⟨.error e⟩).1 = .error e ∧
     ((runOperation ⟨.error e⟩).2.count .rollback = 1 ∧
      (runOperation ⟨.error e⟩).2.count .commit = 0)) ∧
    ((runInteraction (R := R) ⟨.error e⟩).1 = .error e ∧
     ((runInteraction (R := R) ⟨.error e⟩).2.count .rollback = 1 ∧
      (runInteraction (R := R) ⟨.error e⟩).2.count .commit = 0)) :=
  ⟨⟨rfl, rfl, rfl⟩, ⟨rfl, rfl, rfl⟩, ⟨rfl, rfl, rfl⟩, ⟨rfl, rfl, rfl⟩⟩

/-- C3: in `runInteraction`, if the user function returns normally the
handle's cursor is closed before the connection is committed and the
return value becomes the future's success value; if the user function
raises, the connection is rolled back and the same failure re-raised,
with no explicit cursor close on that path. -/
theorem runInteraction_close_asymmetry {E R : Type} (r : R) (e : E) :
    ((runInteraction (E := E) ⟨.ok r⟩).1 = .ok r ∧
     (runInteraction (E := E) ⟨.ok r⟩).2 =
       [.connAcquire, .openCursor, .interact, .cclose, .commit] ∧
     (runInteraction (E := E) ⟨.ok r⟩).2.indexOf .cclose <
       (runInteraction (E := E) ⟨.ok r⟩).2.indexOf .commit) ∧
    ((runInteraction (R := R) ⟨.error e⟩).1 = .error e ∧
     (runInteraction (R := R) ⟨.error e⟩).2 =
       [.connAcquire, .openCursor, .interact, .rollback] ∧
     (runInteraction (R := R) ⟨.error e⟩).2.count .cclose = 0) :=
  ⟨⟨rfl, rfl, Nat.le.refl⟩, ⟨rfl, rfl, rfl⟩⟩

/-- C7 counterexample: under a thread identity with no registry entry,
`disconnect` of a null connection returns normally instead of raising the
ownership error the claim predicts for every call under an identity with
no registry entry. -/
theorem disconnect_missing_entry_no_error :
    lookupConn freshPool.connections 0 = none ∧
    (freshPool.disconnect 0 none).res = .ok () :=
  ⟨rfl, rfl⟩

/-- C7 (amended): `disconnect(conn)` under identity `tid` raises the
ownership error exactly when `conn` differs from the registry lookup for
`tid` (a missing entry reading as a null connection) — in particular a
non-null `conn` under an identity with no entry errors, while a null
`conn` under an identity with no entry is a silent no-op; when `conn` is
the registered connection it is closed and the identity's entry
removed. -/
theorem disconnect_ownership (p : Pool) (tid : Nat) (conn : Option Nat) :
    (conn ≠ lookupConn p.connections tid →
       p.disconnect tid conn = ⟨.error "wrong connection for thread", p, []⟩) ∧
    (∀ c, conn = some c → lookupConn p.connections tid = some c →
       ((p.disconnect tid conn).res = .ok () ∧
        (p.disconnect tid conn).events = [.connClose c] ∧
        lookupConn (p.disconnect tid conn).pool.connections tid = none)) ∧
    (conn = none → lookupConn p.connections tid = none →
       p.disconnect tid conn = ⟨.ok (), p, []⟩) := by
  refine ⟨?_, ?_, ?_⟩
  · intro hne
    simp [Pool.disconnect, hne]
  · intro c hconn hl
    subst hconn
    have he : some c = lookupConn p.connections tid := hl.symm
    refine ⟨by simp [Pool.disconnect, he], by simp [Pool.disconnect, he], ?_⟩
    simp only [Pool.disconnect, he, ne_eq, not_true_eq_false, if_false]
    exact lookupConn_filter_self
  · intro hconn hl
    subst hconn
    simp [Pool.disconnect, hl.symm]

/-- C7 witness: disconnecting the registered connection 5 under identity
0 of `samplePool` succeeds, closes it, and empties that identity's
entry. -/
theorem disconnect_ownership_witness :
    (samplePool.disconnect 0 (some 5)).res = .ok () ∧
    (samplePool.disconnect 0 (some 5)).events = [.connClose 5] ∧
    lookupConn (samplePool.disconnect 0 (some 5)).pool.connections 0 = none :=
  (disconnect_ownership samplePool 0 (some 5)).2.1 5 rfl rfl

/-- C8 counterexample: with `cp_min = 0` and `cp_max = 5` the constructed
pool has `min = 0`, so the claimed invariant `0 < min` fails even though
construction succeeds. -/
theorem pool_min_positive_cex :
    ¬ (0 < (mkPool "pyPgSQL.PgSQL" [] [] (some 0) (some 5) none false).min) := by
  decide

/-- C8 (amended): for every pair of supplied `cp_min`/`cp_max` values,
pool construction succeeds (it is total and never raises) and afterwards
`min ≤ max` holds, even when the caller supplies `min` greater than
`max`; when both supplied (or defaulted) values are positive,
`0 < min ≤ max` holds. -/
theorem pool_min_le_max (name : String) (args : List String)
    (kw : List (String × String)) (cpMin cpMax : Option Int)
    (cpNoisy : Option Bool) (cpOpenfun : Bool) :
    (mkPool name args kw cpMin cpMax cpNoisy cpOpenfun).min ≤
      (mkPool name args kw cpMin cpMax cpNoisy cpOpenfun).max ∧
    (0 < cpMin.getD 3 → 0 < cpMax.getD 5 →
      0 < (mkPool name args kw cpMin cpMax cpNoisy cpOpenfun).min) := by
  constructor
  · show Min.min (cpMin.getD 3) (cpMax.getD 5) ≤
      Max.max (Min.min (cpMin.getD 3) (cpMax.getD 5)) (cpMax.getD 5)
    exact le_max_left _ _
  · intro hmn hmx
    show (0 : Int) < Min.min (cpMin.getD 3) (cpMax.getD 5)
    exact lt_min hmn hmx

/-- C4: `connect()` returns the connection already registered for the
calling identity when one exists; otherwise it opens a new connection via
the driver's connect call forwarding the stored connect arguments,
invokes the `cp_openfun` hook when configured, stores the connection
under that identity, and returns it; if the driver's connect call raises,
no registry entry is stored, so a later `connect()` on the same identity
attempts to open again. -/
theorem connect_registry_spec (p : Pool) (d : Nat) (fail : Bool) (tid : Nat) :
    (∀ c, lookupConn p.connections tid = some c →
        p.connect d fail tid = ⟨.ok c, p, d, []⟩) ∧
    (lookupConn p.connections tid = none → fail = false →
        ∃ c, (p.connect d fail tid).res = .ok c ∧
          lookupConn (p.connect d fail tid).pool.connections tid = some c ∧
          (p.connect d fail tid).events.count
            (.driverConnect p.connargs p.connkw) = 1 ∧
          (p.connect d fail tid).events.count (.openfunCall c) =
            (if p.openfun then 1 else 0)) ∧
    (lookupConn p.connections tid = none → fail = true →
        ((p.connect d fail tid).res = .error () ∧
         (p.connect d fail tid).pool = p ∧
         (p.connect d fail tid).dnext = d ∧
         (p.connect d fail tid).events =
           [.driverConnect p.connargs p.connkw] ∧
         ((p.connect d fail tid).pool.connect d false tid).events.count
           (.driverConnect p.connargs p.connkw) = 1)) := by
  refine ⟨?_, ?_, ?_⟩
  · intro c hl
    simp [Pool.connect, hl]
  · intro hl hf
    subst hf
    have hconn : (p.connect d false tid).pool.connections =
        p.connections ++ [(tid, d)] := by simp [Pool.connect, hl]
    have hev : (p.connect d false tid).events =
        [PEv.driverConnect p.connargs p.connkw] ++
          (if p.openfun then [PEv.openfunCall d] else []) := by
      simp [Pool.connect, hl]
    refine ⟨d, by simp [Pool.connect, hl], ?_, ?_, ?_⟩
    · rw [hconn]
      exact lookupConn_append_self _ hl
    · rw [hev]
      cases hof : p.openfun <;> simp [List.count_append, List.count_cons]
    · rw [hev]
      cases hof : p.openfun <;> simp [List.count_append, List.count_cons]
  · intro hl hf
    subst hf
    have hpool : (p.connect d true tid).pool = p := by
      simp [Pool.connect, hl]
    have hev2 : (p.connect d false tid).events =
        [PEv.driverConnect p.connargs p.connkw] ++
          (if p.openfun then [PEv.openfunCall d] else []) := by
      simp [Pool.connect, hl]
    refine ⟨by simp [Pool.connect, hl], hpool, by simp [Pool.connect, hl],
      by simp [Pool.connect, hl], ?_⟩
    rw [hpool, hev2]
    cases hof : p.openfun <;> simp [List.count_append, List.count_cons]

/-- C4 witness: on `samplePool`, identity 0 already has connection 5
registered, and `connect` returns it without touching the driver, the
registry or the counter. -/
theorem connect_registry_spec_witness :
    samplePool.connect 6 false 0 = ⟨.ok 5, samplePool, 6, []⟩ :=
  (connect_registry_spec samplePool 6 false 0).1 5 rfl

/-- C5: two `connect()` calls made under the same worker identity (with
no intervening disconnect) return the same connection instance, and
`connect()` calls made under two distinct worker identities never return
the same connection instance. -/
theorem connect_affinity (p : Pool) (d : Nat) (f1 f2 : Bool)
    (tid1 tid2 c1 c2 : Nat) (hwf : p.WF d)
    (h1 : (p.connect d f1 tid1).res = .ok c1)
    (h2 : ((p.connect d f1 tid1).pool.connect (p.connect d f1 tid1).dnext
            f2 tid2).res = .ok c2) :
    (tid1 = tid2 → c1 = c2) ∧ (tid1 ≠ tid2 → c1 ≠ c2) := by
  have hl1 : lookupConn (p.connect d f1 tid1).pool.connections tid1 = some c1 :=
    connect_ok_lookup h1
  have hw1 : (p.connect d f1 tid1).pool.WF (p.connect d f1 tid1).dnext :=
    connect_WF f1 tid1 hwf
  constructor
  · intro he
    subst he
    generalize hq : p.connect d f1 tid1 = q at hl1 h2
    have hstep : q.pool.connect q.dnext f2 tid1 =
        ⟨.ok c1, q.pool, q.dnext, []⟩ := by
      simp [Pool.connect, hl1]
    rw [hstep] at h2
    simpa using h2
  · intro hne hcc
    have hl2 : lookupConn ((p.connect d f1 tid1).pool.connect
        (p.connect d f1 tid1).dnext f2 tid2).pool.connections tid2 = some c2 :=
      connect_ok_lookup h2
    have hw2 := connect_WF (p := (p.connect d f1 tid1).pool) f2 tid2 hw1
    have hframe := (connect_frame (p.connect d f1 tid1).pool
        (p.connect d f1 tid1).dnext f2 tid2).2 tid1 hne
    have hl1' : lookupConn ((p.connect d f1 tid1).pool.connect
        (p.connect d f1 tid1).dnext f2 tid2).pool.connections tid1 = some c1 := by
      rw [hframe]; exact hl1
    rw [hcc] at hl1'
    exact hne (lookupConn_inj hw2 hl1' hl2)

/-- The fresh pool's empty registry is well-formed against a driver that
has opened no connection yet. -/
theorem freshPool_WF : freshPool.WF 0 := by
  have hnil : freshPool.connections = [] := rfl
  refine ⟨?_, ?_, ?_⟩ <;> rw [hnil] <;> simp

/-- C5 witness: on the fresh pool, `connect` under identity 0 then under
identity 1 yields connections 0 and 1; the conclusion holds at those
concrete identities and connections. -/
theorem connect_affinity_witness :
    ((0 : Nat) = 1 → (0 : Nat) = 1) ∧ ((0 : Nat) ≠ 1 → (0 : Nat) ≠ 1) :=
  connect_affinity freshPool 0 false false 0 1 0 1 freshPool_WF rfl rfl

/-- C6: `close()` (via `finalClose()`) invokes `close` exactly once on
every connection currently held in the registry — and on nothing else —
and leaves the registry empty; a second `close()` produces no error and
closes no connection a second time; `finalClose()` is safe on a pool
whose `start()` was never called. -/
theorem close_closes_each_once (p : Pool)
    (hv : (p.connections.map Prod.snd).Nodup) :
    (∀ c ∈ p.connections.map Prod.snd,
        (p.close).2.count (.connClose c) = 1) ∧
    ((p.close).2 = p.connections.map (fun e => PEv.connClose e.2)) ∧
    ((p.close).1.connections = []) ∧
    (((p.close).1.close).2 = []) ∧
    (∀ name args kw cpMin cpMax cpNoisy cpOpenfun,
        ((mkPool name args kw cpMin cpMax cpNoisy cpOpenfun).finalClose).2
            = [] ∧
        ((mkPool name args kw cpMin cpMax cpNoisy
            cpOpenfun).finalClose).1.running = false ∧
        ((mkPool name args kw cpMin cpMax cpNoisy
            cpOpenfun).finalClose).1.connections = []) := by
  have hinj : Function.Injective PEv.connClose := by
    intro a b h
    injection h
  have hmapeq : p.connections.map (fun e => PEv.connClose e.2) =
      (p.connections.map Prod.snd).map PEv.connClose := by
    rw [List.map_map]
    rfl
  refine ⟨?_, rfl, rfl, rfl, fun _ _ _ _ _ _ _ => ⟨rfl, rfl, rfl⟩⟩
  intro c hc
  show (p.connections.map (fun e => PEv.connClose e.2)).count
    (PEv.connClose c) = 1
  rw [hmapeq]
  exact List.count_eq_one_of_mem (hv.map hinj) (List.mem_map_of_mem _ hc)

/-- C6 witness: closing `samplePool` closes its one registered connection
exactly once and empties the registry. -/
theorem close_closes_each_once_witness :
    (samplePool.close).2.count (.connClose 5) = 1 ∧
    (samplePool.close).1.connections = [] :=
  ⟨(close_closes_each_once samplePool (by decide)).1 5 (by decide),
   (close_closes_each_once samplePool (by decide)).2.2.1⟩

/-- `reopen` on a well-formed handle: the new cursor is the fresh one
from the connection, well-formedness (in particular "the exposed cursor
is not closed") is preserved, and the previous cursor, if any, is closed
first. -/
theorem reopen_spec {t : Trans} {c : ConnSt} (hwf : t.wf c) :
    (t.reopen c).1.cursor = some c.nextCursor ∧
    (t.reopen c).1.wf (t.reopen c).2 ∧
    (∀ k, t.cursor = some k → (t.reopen c).2.closed = k :: c.closed) := by
  obtain ⟨hcwf, hcur⟩ := hwf
  obtain ⟨tc⟩ := t
  cases tc with
  | none =>
    refine ⟨rfl, ⟨?_, ?_⟩, ?_⟩
    · show ∀ x ∈ c.closed, x < c.nextCursor + 1
      intro x hx
      exact Nat.lt_succ_of_lt (hcwf x hx)
    · intro k hk
      injection hk with h
      subst h
      refine ⟨Nat.lt_succ_self _, ?_⟩
      show c.nextCursor ∉ c.closed
      intro hmem
      exact Nat.lt_irrefl _ (hcwf _ hmem)
    · intro k hk
      cases hk
  | some k0 =>
    have hk0 := hcur k0 rfl
    refine ⟨rfl, ⟨?_, ?_⟩, ?_⟩
    · show ∀ x ∈ k0 :: c.closed, x < c.nextCursor + 1
      intro x hx
      rcases List.mem_cons.1 hx with h | h
      · subst h
        exact Nat.lt_succ_of_lt hk0.1
      · exact Nat.lt_succ_of_lt (hcwf x h)
    · intro k hk
      injection hk with h
      subst h
      refine ⟨Nat.lt_succ_self _, ?_⟩
      show c.nextCursor ∉ k0 :: c.closed
      intro hmem
      rcases List.mem_cons.1 hmem with h | h
      · exact Nat.lt_irrefl _ (h ▸ hk0.1)
      · exact Nat.lt_irrefl _ (hcwf _ h)
    · intro k hk
      injection hk with h
      subst h
      rfl

/-- C9: a `Transaction` handle's cursor is never null after construction
or after `reopen()`: construction immediately opens a cursor from the
connection; `reopen()` closes the existing cursor first when one exists
and then opens a fresh cursor from the same connection; attribute access
on the handle is forwarded unmodified to that underlying cursor; and the
handle never exposes a null or closed cursor. -/
theorem transaction_cursor_never_null (c : ConnSt) (t : Trans)
    (hwf : t.wf c) :
    ((Trans.init c).1.cursor ≠ none ∧
     (Trans.init c).1.wf (Trans.init c).2) ∧
    ((t.reopen c).1.cursor ≠ none ∧
     (t.reopen c).1.wf (t.reopen c).2) ∧
    (∀ k, t.cursor = some k → (t.reopen c).2.closed = k :: c.closed) ∧
    (∀ k, (t.reopen c).1.cursor = some k → k ∉ (t.reopen c).2.closed) ∧
    (∀ t' : Trans, t'.getattrTarget = t'.cursor) := by
  have hwf0 : (⟨none⟩ : Trans).wf c := by
    refine ⟨hwf.1, ?_⟩
    intro k hk
    cases hk
  have hinit := reopen_spec hwf0
  have hre := reopen_spec hwf
  refine ⟨⟨?_, hinit.2.1⟩, ⟨?_, hre.2.1⟩, hre.2.2, ?_, fun _ => rfl⟩
  · rw [show Trans.init c = Trans.reopen ⟨none⟩ c from rfl, hinit.1]
    simp
  · rw [hre.1]
    simp
  · intro k hk
    exact (hre.2.1.2 k hk).2

/-- C9 witness: on a connection that has issued no cursor and closed
none, a handle constructed and then reopened always holds a cursor. -/
theorem transaction_cursor_never_null_witness :
    (Trans.init ⟨0, []⟩).1.cursor ≠ none ∧
    (Trans.reopen ⟨none⟩ ⟨0, []⟩).1.cursor ≠ none := by
  have hwf : (⟨none⟩ : Trans).wf ⟨0, []⟩ := by
    refine ⟨?_, ?_⟩
    · intro x hx
      cases hx
    · intro k hk
      cases hk
  exact ⟨(transaction_cursor_never_null ⟨0, []⟩ ⟨none⟩ hwf).1.1,
         (transaction_cursor_never_null ⟨0, []⟩ ⟨none⟩ hwf).2.1.1⟩

/-- C10: `connect()` and `disconnect()` executed under identity `tid`
mutate at most the registry entry keyed by `tid` — every other identity's
entry is unchanged — and leave the pool's configuration fields
(`dbapiName`, `min`, `max`, `noisy`, `openfun`, `connargs`, `connkw`)
unchanged. -/
theorem connect_disconnect_frame_spec (p : Pool) (d : Nat) (fail : Bool)
    (tid : Nat) (conn : Option Nat) :
    ((∀ t', t' ≠ tid →
        lookupConn (p.connect d fail tid).pool.connections t' =
          lookupConn p.connections t') ∧
     ((p.connect d fail tid).pool.dbapiName = p.dbapiName ∧
      (p.connect d fail tid).pool.noisy = p.noisy ∧
      (p.connect d fail tid).pool.min = p.min ∧
      (p.connect d fail tid).pool.max = p.max ∧
      (p.connect d fail tid).pool.openfun = p.openfun ∧
      (p.connect d fail tid).pool.connargs = p.connargs ∧
      (p.connect d fail tid).pool.connkw = p.connkw)) ∧
    ((∀ t', t' ≠ tid →
        lookupConn (p.disconnect tid conn).pool.connections t' =
          lookupConn p.connections t') ∧
     ((p.disconnect tid conn).pool.dbapiName = p.dbapiName ∧
      (p.disconnect tid conn).pool.noisy = p.noisy ∧
      (p.disconnect tid conn).pool.min = p.min ∧
      (p.disconnect tid conn).pool.max = p.max ∧
      (p.disconnect tid conn).pool.openfun = p.openfun ∧
      (p.disconnect tid conn).pool.connargs = p.connargs ∧
      (p.disconnect tid conn).pool.connkw = p.connkw)) :=
  ⟨⟨(connect_frame p d fail tid).2, (connect_frame p d fail tid).1⟩,
   ⟨(disconnect_frame p tid conn).2, (disconnect_frame p tid conn).1⟩⟩

/-- C10 witness: on `samplePool`, a `connect` under identity 1 leaves
identity 0's registry entry unchanged. -/
theorem connect_disconnect_frame_witness :
    lookupConn (samplePool.connect 6 false 1).pool.connections 0 =
      lookupConn samplePool.connections 0 :=
  (connect_disconnect_frame_spec samplePool 6 false 1 none).1.1 0 (by decide)

/-- C8 witness: `cp_min = 7`, `cp_max = 2` — reversed values are
reconciled to `min = 2 ≤ max = 2`, and with both supplied values positive
the reconciled `min` is positive. -/
theorem pool_min_le_max_witness :
    ((mkPool "pyPgSQL.PgSQL" [] [] (some 7) (some 2) none false).min ≤
      (mkPool "pyPgSQL.PgSQL" [] [] (some 7) (some 2) none false).max) ∧
    (0 < (mkPool "pyPgSQL.PgSQL" [] [] (some 7) (some 2) none false).min) :=
  ⟨(pool_min_le_max "pyPgSQL.PgSQL" [] [] (some 7) (some 2) none false).1,
   (pool_min_le_max "pyPgSQL.PgSQL" [] [] (some 7) (some 2) none false).2
     (by decide) (by decide)⟩

end Adbapi
